import Mathlib

/-!
# Verification of the `fastai` documentation pair `docs_src/text.ipynb` / `docs/text.html`

The repository under verification contains exactly two source files: the
Jupyter notebook `src/docs_src/text.ipynb` and its HTML export
`src/docs/text.html`.  Both are static documentation artifacts; the notebook
is a sequence of cells (markdown or code, each code cell with captured
outputs) and the HTML export is the rendered sequence of the same cells.

This development embeds both artifacts as Lean data, translated cell by cell
from the source files:

* every notebook cell becomes an `NbCell` (cell type, the `hide_input`
  metadata flag, the source lines exactly as stored in the JSON `source`
  arrays with the trailing newline of each line removed, and the captured
  outputs: `stream` text or `execute_result` data with its `text/plain`
  rendering and, when present, its `text/html` rendering);
* every `<div class="cell ...">` block of the HTML export becomes an
  `HtmlCell` (cell type, the pygments-highlighted input `<pre>` block lines
  when an input area is present, the content lines of each
  `<div class="output_subarea ...">` block, and for markdown cells the inner
  lines of the `text_cell_render` block).

In the embedded strings the characters `'`, `{`, `}` and the backtick are
written with `\xNN` escapes; this is a notational choice only, the decoded
strings are byte-for-byte the lines of the source files.  The HTML file's
YAML front matter (title/keywords/summary) and the outer
`<div class="container">` wrapper are page chrome outside any cell and are
not part of the cell sequence.

On top of the embedded data the development defines executable text
extraction: HTML tag stripping, character-entity decoding, markdown markup
stripping and whitespace-insensitive word splitting, and uses them to compare
the two artifacts cell by cell, to classify every code statement and every
demonstrated library call, and to check the captured outputs.  The behavior
of the fastai library functions that the notebook demonstrates
(preprocessing cache, vocabulary sharing, stochastic training) is not under
`src/`; where a claim depends on it, a definition explicitly marked
`Modelled from the spec:` models the documented behavior.
-/

set_option maxRecDepth 20000

/-- The type of a notebook cell: markdown prose or executable code. -/
inductive CellKind
  | markdown
  | code
  deriving DecidableEq, Repr

/-- One captured output of a notebook code cell, as stored in the `outputs`
array of the cell in `text.ipynb`: a `stream` output holds the printed text
lines, an `execute_result` holds the `text/plain` rendering and, when the
notebook stored one, the `text/html` rendering. -/
inductive NbOutput
  | stream (text : List String)
  | execResult (plain : List String) (html : Option (List String))
  deriving DecidableEq, Repr

/-- A cell of `src/docs_src/text.ipynb`: its type, its `hide_input` metadata
flag, its source lines and its captured outputs. -/
structure NbCell where
  kind : CellKind
  hideInput : Bool
  source : List String
  outputs : List NbOutput
  deriving DecidableEq, Repr

/-- A `<div class="cell ...">` block of `src/docs/text.html`: its type, the
lines of its highlighted input `<pre>` block (`none` when the cell div has no
input area), the content lines of each of its `output_subarea` blocks, and,
for markdown cells, the inner lines of its `text_cell_render` block. -/
structure HtmlCell where
  kind : CellKind
  input : Option (List String)
  outputs : List (List String)
  body : List String
  deriving DecidableEq, Repr
def nb0 : NbCell :=
  { kind := .markdown, hideInput := false,
    source := [ "# Text models, data, and training"],
    outputs := [] }

def nb1 : NbCell :=
  { kind := .code, hideInput := true,
    source := [ "from fastai.gen_doc.nbdoc import *"],
    outputs := [] }

def nb2 : NbCell :=
  { kind := .markdown, hideInput := false,
    source := [ "The [\x60text\x60](/text.html#text) module of the fastai library contains all the necessary functions to define a Dataset suitable for the various NLP (Natural Language Processing) tasks and quickly generate models you can use for them. Specifically:",
    "- [\x60text.transform\x60](/text.transform.html#text.transform) contains all the scripts to preprocess your data, from raw text to token ids,",
    "- [\x60text.data\x60](/text.data.html#text.data) contains the definition of [\x60TextDataset\x60](/text.data.html#TextDataset), which the main class you\x27ll need in NLP,",
    "- [\x60text.learner\x60](/text.learner.html#text.learner) contains helper functions to quickly create a language model or an RNN classifier.",
    "",
    "Have a look at the links above for full details of the API of each module, of read on for a quick overview."],
    outputs := [] }

def nb3 : NbCell :=
  { kind := .markdown, hideInput := false,
    source := [ "## Quick Start: Training an IMDb sentiment model with *ULMFiT*"],
    outputs := [] }

def nb4 : NbCell :=
  { kind := .markdown, hideInput := false,
    source := [ "Let\x27s start with a quick end-to-end example of training a model. We\x27ll train a sentiment classifier on a sample of the popular IMDb data, showing 4 steps:",
    "",
    "1. Reading and viewing the IMDb data",
    "1. Getting your data ready for modeling",
    "1. Fine-tuning a language model",
    "1. Building a classifier"],
    outputs := [] }

def nb5 : NbCell :=
  { kind := .markdown, hideInput := false,
    source := [ "### Reading and viewing the IMDb data"],
    outputs := [] }

def nb6 : NbCell :=
  { kind := .markdown, hideInput := false,
    source := [ "First let\x27s import everything we need for text."],
    outputs := [] }

def nb7 : NbCell :=
  { kind := .code, hideInput := false,
    source := [ "from fastai import *",
    "from fastai.text import * "],
    outputs := [] }

def nb8 : NbCell :=
  { kind := .markdown, hideInput := false,
    source := [ "Contrary to images in Computer Vision, text can\x27t directly be transformed into numbers to be fed into a model. The first thing we need to do is to preprocess our data so that we change the raw texts to lists of words, or tokens (a step that is called tokenization) then transform these tokens into numbers (a step that is called numericalization). These numbers are then passed to embedding layers that wil convert them in arrays of floats before passing them through a model.",
    "",
    "You can find on the web plenty of [Word Embeddings](https://en.wikipedia.org/wiki/Word_embedding) to directly convert your tokens into floats. Those word embeddings have generally be trained on a large corpus such as wikipedia. Following the work of [ULMFiT](https://arxiv.org/abs/1801.06146), the fastai library is more focused on using pre-trained Language Models and fine-tuning them. Word embeddings are just vectors of 300 or 400 floats that represent different words, but a pretrained language model not only has those, but has also been trained to get a representation of full sentences and documents.",
    "",
    "That\x27s why the library is structured around three steps:",
    "",
    "1. Get your data preprocessed and ready to use in a minimum amount of code,",
    "1. Create a language model with pretrained weights that you can fine-tune to your dataset,",
    "1. Create other models such as classifiers on top of the encoder of the language model.",
    "",
    "To show examples, we have provided a small sample of the [IMDB dataset](https://www.imdb.com/interfaces/) which contains 1,000 reviews of movies with labels (positive or negative)."],
    outputs := [] }

def nb9 : NbCell :=
  { kind := .code, hideInput := false,
    source := [ "path = untar_data(URLs.IMDB_SAMPLE)",
    "path"],
    outputs := [ .execResult [ "PosixPath(\x27/home/ubuntu/.fastai/data/imdb_sample\x27)"] none] }

def nb10 : NbCell :=
  { kind := .markdown, hideInput := false,
    source := [ "Creating a dataset from your raw texts is very simple if you have it in one of those ways",
    "- organized it in folders in an ImageNet style",
    "- organized in a csv file with labels columns and a text columns",
    "",
    "Here, the sample from imdb is in a train and valid csv files that looks like this:"],
    outputs := [] }

def nb11 : NbCell :=
  { kind := .code, hideInput := false,
    source := [ "df = pd.read_csv(path/\x27train.csv\x27, header=None)",
    "df.head()"],
    outputs := [ .execResult [ "   0                                                  1",
      "0  0  Un-bleeping-believable! Meg Ryan doesn\x27t even ...",
      "1  1  This is a extremely well-made film. The acting...",
      "2  0  Every once in a long while a movie will come a...",
      "3  1  Name just says it all. I watched this movie wi...",
      "4  0  This movie succeeds at being one of the most u..."]
      (some [ "<div>",
        "<style scoped>",
        "    .dataframe tbody tr th:only-of-type \x7b",
        "        vertical-align: middle;",
        "    \x7d",
        "",
        "    .dataframe tbody tr th \x7b",
        "        vertical-align: top;",
        "    \x7d",
        "",
        "    .dataframe thead th \x7b",
        "        text-align: right;",
        "    \x7d",
        "</style>",
        "<table border=\"1\" class=\"dataframe\">",
        "  <thead>",
        "    <tr style=\"text-align: right;\">",
        "      <th></th>",
        "      <th>0</th>",
        "      <th>1</th>",
        "    </tr>",
        "  </thead>",
        "  <tbody>",
        "    <tr>",
        "      <th>0</th>",
        "      <td>0</td>",
        "      <td>Un-bleeping-believable! Meg Ryan doesn\x27t even ...</td>",
        "    </tr>",
        "    <tr>",
        "      <th>1</th>",
        "      <td>1</td>",
        "      <td>This is a extremely well-made film. The acting...</td>",
        "    </tr>",
        "    <tr>",
        "      <th>2</th>",
        "      <td>0</td>",
        "      <td>Every once in a long while a movie will come a...</td>",
        "    </tr>",
        "    <tr>",
        "      <th>3</th>",
        "      <td>1</td>",
        "      <td>Name just says it all. I watched this movie wi...</td>",
        "    </tr>",
        "    <tr>",
        "      <th>4</th>",
        "      <td>0</td>",
        "      <td>This movie succeeds at being one of the most u...</td>",
        "    </tr>",
        "  </tbody>",
        "</table>",
        "</div>"])] }

def nb12 : NbCell :=
  { kind := .markdown, hideInput := false,
    source := [ "Labels are encoded (though we can tell 1 seems to be positive from the bits of comments we see), and the file classes.txt contain the correspondence between index and names."],
    outputs := [] }

def nb13 : NbCell :=
  { kind := .code, hideInput := false,
    source := [ "classes = read_classes(path/\x27classes.txt\x27)",
    "classes[0], classes[1]"],
    outputs := [ .execResult [ "(\x27negative\x27, \x27positive\x27)"] none] }

def nb14 : NbCell :=
  { kind := .markdown, hideInput := false,
    source := [ "### Getting your data ready for modeling"],
    outputs := [] }

def nb15 : NbCell :=
  { kind := .markdown, hideInput := false,
    source := [ "To create a dataset, we can just use the [\x60TextDataset.from_df\x60](/text.data.html#TextDataset.from_df) method. It will automatically do the two step of preprocessing for us. There is more information about those two steps in [\x60text.transform\x60](/text.transform.html#text.transform) where you\x27ll also find how to customize the tokenizer from the fastai defaults."],
    outputs := [] }

def nb16 : NbCell :=
  { kind := .code, hideInput := true,
    source := [ "for file in [\x27train_tok.npy\x27, \x27valid_tok.npy\x27]:",
    "    if os.path.exists(path/\x27tmp\x27/file): os.remove(path/\x27tmp\x27/file)"],
    outputs := [] }

def nb17 : NbCell :=
  { kind := .code, hideInput := false,
    source := [ "train_ds = TextDataset.from_df(path, df, classes=classes)"],
    outputs := [ .stream [ "Numericalizing train."]] }

def nb18 : NbCell :=
  { kind := .markdown, hideInput := false,
    source := [ "Note that to avoid redoing this step (which can be quite time-consuming if you have a very large dataset), the fastai library has created a \x60tmp\x60 directory in the folder given, to store the tokens (in \x60_tok.npy\x60 files), the labels (in \x60_lbl.npy\x60 files), the ids of the tokens (in \x60_id.npy\x60 files) and the dictionary (\x60itos.pkl\x60). When you reexecute the line in the future, it will directly load that data.",
    "",
    "To get a [\x60DataBunch\x60](/basic_data.html#DataBunch) quickly, there are also several factory methods depending on how our data is structured. They are all detailed in [\x60text.data\x60](/text.data.html#text.data), here we\x27ll use the method <code>from_csv</code> of the [\x60TextLMDataBunch\x60](/text.data.html#TextLMDataBunch) (to get the data ready for a language model) and [\x60TextClasDataBunch\x60](/text.data.html#TextClasDataBunch) (to get the data ready for a text classifier) classes."],
    outputs := [] }

def nb19 : NbCell :=
  { kind := .code, hideInput := false,
    source := [ "# Language model data",
    "data_lm = TextLMDataBunch.from_csv(path)",
    "# Classifier model data",
    "data_clas = TextClasDataBunch.from_csv(path, vocab=data_lm.train_ds.vocab, bs=32)"],
    outputs := [ .stream [ "Numericalizing valid."]] }

def nb20 : NbCell :=
  { kind := .markdown, hideInput := false,
    source := [ "Note that [\x60TextDataset\x60](/text.data.html#TextDataset) was called behind the scenes for \x60train.csv\x60 and \x60valid.csv\x60 but, as explained earlier, it only preprocessed the validation set, since it had stored the result for the training set.  organize the data. \x60TextLMDataBunch.from_csv\x60, prepares the dataset for a language model, while \x60TextClasDataBunch.from_csv\x60 prepares for a classifier (see the differences in [\x60text.data\x60](/text.data.html#text.data)).",
    "",
    "For the classifier, we also pass the vocabulary (mapping from ids to words) that we want to use: this is to ensure that \x60data_clas\x60 will use the same dictionary as \x60data_lm\x60."],
    outputs := [] }

def nb21 : NbCell :=
  { kind := .markdown, hideInput := false,
    source := [ "### Fine-tuning a language model"],
    outputs := [] }

def nb22 : NbCell :=
  { kind := .markdown, hideInput := false,
    source := [ "We can use the \x60data_lm\x60 object we created earlier to fine-tune a pretrained language model. [fast.ai](http://www.fast.ai/) has an English model available that we can download. We can create a learner object that will directly create a model, download the pretrained weights and be ready for fine-tuning."],
    outputs := [] }

def nb23 : NbCell :=
  { kind := .code, hideInput := false,
    source := [ "learn = RNNLearner.language_model(data_lm, pretrained_model=URLs.WT103, drop_mult=0.5)",
    "learn.fit_one_cycle(1, 1e-2)"],
    outputs := [ .stream [ "Total time: 00:18",
      "epoch  train_loss  valid_loss  accuracy",
      "1      4.725450    4.224330    0.245299  (00:18)",
      ""]] }

def nb24 : NbCell :=
  { kind := .markdown, hideInput := false,
    source := [ "Like a computer vision model, we can then unfreeze the model and fine-tune it."],
    outputs := [] }

def nb25 : NbCell :=
  { kind := .code, hideInput := false,
    source := [ "learn.unfreeze()",
    "learn.fit_one_cycle(1, 1e-3)"],
    outputs := [ .stream [ "Total time: 00:22",
      "epoch  train_loss  valid_loss  accuracy",
      "1      4.452540    4.139244    0.251466  (00:22)",
      ""]] }

def nb26 : NbCell :=
  { kind := .markdown, hideInput := false,
    source := [ "And finally we save the encoder to be able to use it for classification in the next section."],
    outputs := [] }

def nb27 : NbCell :=
  { kind := .code, hideInput := false,
    source := [ "learn.save_encoder(\x27ft_enc\x27)"],
    outputs := [] }

def nb28 : NbCell :=
  { kind := .markdown, hideInput := false,
    source := [ "### Building a classifier"],
    outputs := [] }

def nb29 : NbCell :=
  { kind := .markdown, hideInput := false,
    source := [ "We now use the \x60data_clas\x60 object we created earlier to build a classifier with our fine-tuned encoder. The learner object can be done in a single line."],
    outputs := [] }

def nb30 : NbCell :=
  { kind := .code, hideInput := false,
    source := [ "learn = RNNLearner.classifier(data_clas, drop_mult=0.5)",
    "learn.load_encoder(\x27ft_enc\x27)",
    "learn.fit_one_cycle(1, 1e-2)"],
    outputs := [ .stream [ "Total time: 00:24",
      "epoch  train_loss  valid_loss  accuracy",
      "1      0.612591    0.585682    0.715000  (00:24)",
      ""]] }

def nb31 : NbCell :=
  { kind := .markdown, hideInput := false,
    source := [ "Again, we can unfreeze the model and fine-tune it."],
    outputs := [] }

def nb32 : NbCell :=
  { kind := .code, hideInput := false,
    source := [ "learn.freeze_to(-2)",
    "learn.fit_one_cycle(1, slice(5e-3/2., 5e-3))"],
    outputs := [ .stream [ "Total time: 00:28",
      "epoch  train_loss  valid_loss  accuracy",
      "1      0.545209    0.526416    0.705000  (00:28)",
      ""]] }

def nb33 : NbCell :=
  { kind := .code, hideInput := false,
    source := [ "learn.unfreeze()",
    "learn.fit_one_cycle(1, slice(2e-3/100, 2e-3))"],
    outputs := [ .stream [ "Total time: 00:54",
      "epoch  train_loss  valid_loss  accuracy",
      "1      0.448358    0.569745    0.740000  (00:54)",
      ""]] }

/-- The notebook src/docs_src/text.ipynb as its ordered list of cells. -/
def textIpynb : List NbCell :=
  [ nb0, nb1, nb2, nb3, nb4, nb5, nb6, nb7, nb8, nb9, nb10, nb11, nb12, nb13, nb14, nb15, nb16, nb17, nb18, nb19, nb20, nb21, nb22, nb23, nb24, nb25, nb26, nb27, nb28, nb29, nb30, nb31, nb32, nb33]

def ht0 : HtmlCell :=
  { kind := .markdown,
    input := none,
    outputs := [],
    body := [ "<h1 id=\"Text-models,-data,-and-training\">Text models, data, and training<a class=\"anchor-link\" href=\"#Text-models,-data,-and-training\">&#182;</a></h1>"] }

def ht1 : HtmlCell :=
  { kind := .code,
    input := none,
    outputs := [],
    body := [] }

def ht2 : HtmlCell :=
  { kind := .markdown,
    input := none,
    outputs := [],
    body := [ "<p>The <a href=\"/text.html#text\"><code>text</code></a> module of the fastai library contains all the necessary functions to define a Dataset suitable for the various NLP (Natural Language Processing) tasks and quickly generate models you can use for them. Specifically:</p>",
    "<ul>",
    "<li><a href=\"/text.transform.html#text.transform\"><code>text.transform</code></a> contains all the scripts to preprocess your data, from raw text to token ids,</li>",
    "<li><a href=\"/text.data.html#text.data\"><code>text.data</code></a> contains the definition of <a href=\"/text.data.html#TextDataset\"><code>TextDataset</code></a>, which the main class you\x27ll need in NLP,</li>",
    "<li><a href=\"/text.learner.html#text.learner\"><code>text.learner</code></a> contains helper functions to quickly create a language model or an RNN classifier.</li>",
    "</ul>",
    "<p>Have a look at the links above for full details of the API of each module, of read on for a quick overview.</p>"] }

def ht3 : HtmlCell :=
  { kind := .markdown,
    input := none,
    outputs := [],
    body := [ "<h2 id=\"Quick-Start:-Training-an-IMDb-sentiment-model-with-ULMFiT\">Quick Start: Training an IMDb sentiment model with <em>ULMFiT</em><a class=\"anchor-link\" href=\"#Quick-Start:-Training-an-IMDb-sentiment-model-with-ULMFiT\">&#182;</a></h2>"] }

def ht4 : HtmlCell :=
  { kind := .markdown,
    input := none,
    outputs := [],
    body := [ "<p>Let\x27s start with a quick end-to-end example of training a model. We\x27ll train a sentiment classifier on a sample of the popular IMDb data, showing 4 steps:</p>",
    "<ol>",
    "<li>Reading and viewing the IMDb data</li>",
    "<li>Getting your data ready for modeling</li>",
    "<li>Fine-tuning a language model</li>",
    "<li>Building a classifier</li>",
    "</ol>"] }

def ht5 : HtmlCell :=
  { kind := .markdown,
    input := none,
    outputs := [],
    body := [ "<h3 id=\"Reading-and-viewing-the-IMDb-data\">Reading and viewing the IMDb data<a class=\"anchor-link\" href=\"#Reading-and-viewing-the-IMDb-data\">&#182;</a></h3>"] }

def ht6 : HtmlCell :=
  { kind := .markdown,
    input := none,
    outputs := [],
    body := [ "<p>First let\x27s import everything we need for text.</p>"] }

def ht7 : HtmlCell :=
  { kind := .code,
    input := some [ "<div class=\" highlight hl-ipython3\"><pre><span></span><span class=\"kn\">from</span> <span class=\"nn\">fastai</span> <span class=\"k\">import</span> <span class=\"o\">*</span>",
      "<span class=\"kn\">from</span> <span class=\"nn\">fastai.text</span> <span class=\"k\">import</span> <span class=\"o\">*</span> "],
    outputs := [],
    body := [] }

def ht8 : HtmlCell :=
  { kind := .markdown,
    input := none,
    outputs := [],
    body := [ "<p>Contrary to images in Computer Vision, text can\x27t directly be transformed into numbers to be fed into a model. The first thing we need to do is to preprocess our data so that we change the raw texts to lists of words, or tokens (a step that is called tokenization) then transform these tokens into numbers (a step that is called numericalization). These numbers are then passed to embedding layers that wil convert them in arrays of floats before passing them through a model.</p>",
    "<p>You can find on the web plenty of <a href=\"https://en.wikipedia.org/wiki/Word_embedding\">Word Embeddings</a> to directly convert your tokens into floats. Those word embeddings have generally be trained on a large corpus such as wikipedia. Following the work of <a href=\"https://arxiv.org/abs/1801.06146\">ULMFiT</a>, the fastai library is more focused on using pre-trained Language Models and fine-tuning them. Word embeddings are just vectors of 300 or 400 floats that represent different words, but a pretrained language model not only has those, but has also been trained to get a representation of full sentences and documents.</p>",
    "<p>That\x27s why the library is structured around three steps:</p>",
    "<ol>",
    "<li>Get your data preprocessed and ready to use in a minimum amount of code,</li>",
    "<li>Create a language model with pretrained weights that you can fine-tune to your dataset,</li>",
    "<li>Create other models such as classifiers on top of the encoder of the language model.</li>",
    "</ol>",
    "<p>To show examples, we have provided a small sample of the <a href=\"https://www.imdb.com/interfaces/\">IMDB dataset</a> which contains 1,000 reviews of movies with labels (positive or negative).</p>"] }

def ht9 : HtmlCell :=
  { kind := .code,
    input := some [ "<div class=\" highlight hl-ipython3\"><pre><span></span><span class=\"n\">path</span> <span class=\"o\">=</span> <span class=\"n\">untar_data</span><span class=\"p\">(</span><span class=\"n\">URLs</span><span class=\"o\">.</span><span class=\"n\">IMDB_SAMPLE</span><span class=\"p\">)</span>",
      "<span class=\"n\">path</span>"],
    outputs := [ [ "<pre>PosixPath(&#39;/home/ubuntu/.fastai/data/imdb_sample&#39;)</pre>"]],
    body := [] }

def ht10 : HtmlCell :=
  { kind := .markdown,
    input := none,
    outputs := [],
    body := [ "<p>Creating a dataset from your raw texts is very simple if you have it in one of those ways</p>",
    "<ul>",
    "<li>organized it in folders in an ImageNet style</li>",
    "<li>organized in a csv file with labels columns and a text columns</li>",
    "</ul>",
    "<p>Here, the sample from imdb is in a train and valid csv files that looks like this:</p>"] }

def ht11 : HtmlCell :=
  { kind := .code,
    input := some [ "<div class=\" highlight hl-ipython3\"><pre><span></span><span class=\"n\">df</span> <span class=\"o\">=</span> <span class=\"n\">pd</span><span class=\"o\">.</span><span class=\"n\">read_csv</span><span class=\"p\">(</span><span class=\"n\">path</span><span class=\"o\">/</span><span class=\"s1\">&#39;train.csv&#39;</span><span class=\"p\">,</span> <span class=\"n\">header</span><span class=\"o\">=</span><span class=\"kc\">None</span><span class=\"p\">)</span>",
      "<span class=\"n\">df</span><span class=\"o\">.</span><span class=\"n\">head</span><span class=\"p\">()</span>"],
    outputs := [ [ "<div>",
        "<style scoped>",
        "    .dataframe tbody tr th:only-of-type \x7b",
        "        vertical-align: middle;",
        "    \x7d",
        "",
        "    .dataframe tbody tr th \x7b",
        "        vertical-align: top;",
        "    \x7d",
        "",
        "    .dataframe thead th \x7b",
        "        text-align: right;",
        "    \x7d",
        "</style>",
        "<table border=\"1\" class=\"dataframe\">",
        "  <thead>",
        "    <tr style=\"text-align: right;\">",
        "      <th></th>",
        "      <th>0</th>",
        "      <th>1</th>",
        "    </tr>",
        "  </thead>",
        "  <tbody>",
        "    <tr>",
        "      <th>0</th>",
        "      <td>0</td>",
        "      <td>Un-bleeping-believable! Meg Ryan doesn\x27t even ...</td>",
        "    </tr>",
        "    <tr>",
        "      <th>1</th>",
        "      <td>1</td>",
        "      <td>This is a extremely well-made film. The acting...</td>",
        "    </tr>",
        "    <tr>",
        "      <th>2</th>",
        "      <td>0</td>",
        "      <td>Every once in a long while a movie will come a...</td>",
        "    </tr>",
        "    <tr>",
        "      <th>3</th>",
        "      <td>1</td>",
        "      <td>Name just says it all. I watched this movie wi...</td>",
        "    </tr>",
        "    <tr>",
        "      <th>4</th>",
        "      <td>0</td>",
        "      <td>This movie succeeds at being one of the most u...</td>",
        "    </tr>",
        "  </tbody>",
        "</table>",
        "</div>"]],
    body := [] }

def ht12 : HtmlCell :=
  { kind := .markdown,
    input := none,
    outputs := [],
    body := [ "<p>Labels are encoded (though we can tell 1 seems to be positive from the bits of comments we see), and the file classes.txt contain the correspondence between index and names.</p>"] }

def ht13 : HtmlCell :=
  { kind := .code,
    input := some [ "<div class=\" highlight hl-ipython3\"><pre><span></span><span class=\"n\">classes</span> <span class=\"o\">=</span> <span class=\"n\">read_classes</span><span class=\"p\">(</span><span class=\"n\">path</span><span class=\"o\">/</span><span class=\"s1\">&#39;classes.txt&#39;</span><span class=\"p\">)</span>",
      "<span class=\"n\">classes</span><span class=\"p\">[</span><span class=\"mi\">0</span><span class=\"p\">],</span> <span class=\"n\">classes</span><span class=\"p\">[</span><span class=\"mi\">1</span><span class=\"p\">]</span>"],
    outputs := [ [ "<pre>(&#39;negative&#39;, &#39;positive&#39;)</pre>"]],
    body := [] }

def ht14 : HtmlCell :=
  { kind := .markdown,
    input := none,
    outputs := [],
    body := [ "<h3 id=\"Getting-your-data-ready-for-modeling\">Getting your data ready for modeling<a class=\"anchor-link\" href=\"#Getting-your-data-ready-for-modeling\">&#182;</a></h3>"] }

def ht15 : HtmlCell :=
  { kind := .markdown,
    input := none,
    outputs := [],
    body := [ "<p>To create a dataset, we can just use the <a href=\"/text.data.html#TextDataset.from_df\"><code>TextDataset.from_df</code></a> method. It will automatically do the two step of preprocessing for us. There is more information about those two steps in <a href=\"/text.transform.html#text.transform\"><code>text.transform</code></a> where you\x27ll also find how to customize the tokenizer from the fastai defaults.</p>"] }

def ht16 : HtmlCell :=
  { kind := .code,
    input := none,
    outputs := [],
    body := [] }

def ht17 : HtmlCell :=
  { kind := .code,
    input := some [ "<div class=\" highlight hl-ipython3\"><pre><span></span><span class=\"n\">train_ds</span> <span class=\"o\">=</span> <span class=\"n\">TextDataset</span><span class=\"o\">.</span><span class=\"n\">from_df</span><span class=\"p\">(</span><span class=\"n\">path</span><span class=\"p\">,</span> <span class=\"n\">df</span><span class=\"p\">,</span> <span class=\"n\">classes</span><span class=\"o\">=</span><span class=\"n\">classes</span><span class=\"p\">)</span>"],
    outputs := [ [ "<pre>Numericalizing train.",
        "</pre>"]],
    body := [] }

def ht18 : HtmlCell :=
  { kind := .markdown,
    input := none,
    outputs := [],
    body := [ "<p>Note that to avoid redoing this step (which can be quite time-consuming if you have a very large dataset), the fastai library has created a <code>tmp</code> directory in the folder given, to store the tokens (in <code>_tok.npy</code> files), the labels (in <code>_lbl.npy</code> files), the ids of the tokens (in <code>_id.npy</code> files) and the dictionary (<code>itos.pkl</code>). When you reexecute the line in the future, it will directly load that data.</p>",
    "<p>To get a <a href=\"/basic_data.html#DataBunch\"><code>DataBunch</code></a> quickly, there are also several factory methods depending on how our data is structured. They are all detailed in <a href=\"/text.data.html#text.data\"><code>text.data</code></a>, here we\x27ll use the method <code>from_csv</code> of the <a href=\"/text.data.html#TextLMDataBunch\"><code>TextLMDataBunch</code></a> (to get the data ready for a language model) and <a href=\"/text.data.html#TextClasDataBunch\"><code>TextClasDataBunch</code></a> (to get the data ready for a text classifier) classes.</p>"] }

def ht19 : HtmlCell :=
  { kind := .code,
    input := some [ "<div class=\" highlight hl-ipython3\"><pre><span></span><span class=\"c1\"># Language model data</span>",
      "<span class=\"n\">data_lm</span> <span class=\"o\">=</span> <span class=\"n\">TextLMDataBunch</span><span class=\"o\">.</span><span class=\"n\">from_csv</span><span class=\"p\">(</span><span class=\"n\">path</span><span class=\"p\">)</span>",
      "<span class=\"c1\"># Classifier model data</span>",
      "<span class=\"n\">data_clas</span> <span class=\"o\">=</span> <span class=\"n\">TextClasDataBunch</span><span class=\"o\">.</span><span class=\"n\">from_csv</span><span class=\"p\">(</span><span class=\"n\">path</span><span class=\"p\">,</span> <span class=\"n\">vocab</span><span class=\"o\">=</span><span class=\"n\">data_lm</span><span class=\"o\">.</span><span class=\"n\">train_ds</span><span class=\"o\">.</span><span class=\"n\">vocab</span><span class=\"p\">,</span> <span class=\"n\">bs</span><span class=\"o\">=</span><span class=\"mi\">32</span><span class=\"p\">)</span>"],
    outputs := [ [ "<pre>Numericalizing valid.",
        "</pre>"]],
    body := [] }

def ht20 : HtmlCell :=
  { kind := .markdown,
    input := none,
    outputs := [],
    body := [ "<p>Note that <a href=\"/text.data.html#TextDataset\"><code>TextDataset</code></a> was called behind the scenes for <code>train.csv</code> and <code>valid.csv</code> but, as explained earlier, it only preprocessed the validation set, since it had stored the result for the training set.  organize the data. <code>TextLMDataBunch.from_csv</code>, prepares the dataset for a language model, while <code>TextClasDataBunch.from_csv</code> prepares for a classifier (see the differences in <a href=\"/text.data.html#text.data\"><code>text.data</code></a>).</p>",
    "<p>For the classifier, we also pass the vocabulary (mapping from ids to words) that we want to use: this is to ensure that <code>data_clas</code> will use the same dictionary as <code>data_lm</code>.</p>"] }

def ht21 : HtmlCell :=
  { kind := .markdown,
    input := none,
    outputs := [],
    body := [ "<h3 id=\"Fine-tuning-a-language-model\">Fine-tuning a language model<a class=\"anchor-link\" href=\"#Fine-tuning-a-language-model\">&#182;</a></h3>"] }

def ht22 : HtmlCell :=
  { kind := .markdown,
    input := none,
    outputs := [],
    body := [ "<p>We can use the <code>data_lm</code> object we created earlier to fine-tune a pretrained language model. <a href=\"http://www.fast.ai/\">fast.ai</a> has an English model available that we can download. We can create a learner object that will directly create a model, download the pretrained weights and be ready for fine-tuning.</p>"] }

def ht23 : HtmlCell :=
  { kind := .code,
    input := some [ "<div class=\" highlight hl-ipython3\"><pre><span></span><span class=\"n\">learn</span> <span class=\"o\">=</span> <span class=\"n\">RNNLearner</span><span class=\"o\">.</span><span class=\"n\">language_model</span><span class=\"p\">(</span><span class=\"n\">data_lm</span><span class=\"p\">,</span> <span class=\"n\">pretrained_model</span><span class=\"o\">=</span><span class=\"n\">URLs</span><span class=\"o\">.</span><span class=\"n\">WT103</span><span class=\"p\">,</span> <span class=\"n\">drop_mult</span><span class=\"o\">=</span><span class=\"mf\">0.5</span><span class=\"p\">)</span>",
      "<span class=\"n\">learn</span><span class=\"o\">.</span><span class=\"n\">fit_one_cycle</span><span class=\"p\">(</span><span class=\"mi\">1</span><span class=\"p\">,</span> <span class=\"mf\">1e-2</span><span class=\"p\">)</span>"],
    outputs := [ [ "<pre>Total time: 00:18",
        "epoch  train_loss  valid_loss  accuracy",
        "1      4.725450    4.224330    0.245299  (00:18)",
        "",
        "</pre>"]],
    body := [] }

def ht24 : HtmlCell :=
  { kind := .markdown,
    input := none,
    outputs := [],
    body := [ "<p>Like a computer vision model, we can then unfreeze the model and fine-tune it.</p>"] }

def ht25 : HtmlCell :=
  { kind := .code,
    input := some [ "<div class=\" highlight hl-ipython3\"><pre><span></span><span class=\"n\">learn</span><span class=\"o\">.</span><span class=\"n\">unfreeze</span><span class=\"p\">()</span>",
      "<span class=\"n\">learn</span><span class=\"o\">.</span><span class=\"n\">fit_one_cycle</span><span class=\"p\">(</span><span class=\"mi\">1</span><span class=\"p\">,</span> <span class=\"mf\">1e-3</span><span class=\"p\">)</span>"],
    outputs := [ [ "<pre>Total time: 00:22",
        "epoch  train_loss  valid_loss  accuracy",
        "1      4.452540    4.139244    0.251466  (00:22)",
        "",
        "</pre>"]],
    body := [] }

def ht26 : HtmlCell :=
  { kind := .markdown,
    input := none,
    outputs := [],
    body := [ "<p>And finally we save the encoder to be able to use it for classification in the next section.</p>"] }

def ht27 : HtmlCell :=
  { kind := .code,
    input := some [ "<div class=\" highlight hl-ipython3\"><pre><span></span><span class=\"n\">learn</span><span class=\"o\">.</span><span class=\"n\">save_encoder</span><span class=\"p\">(</span><span class=\"s1\">&#39;ft_enc&#39;</span><span class=\"p\">)</span>"],
    outputs := [],
    body := [] }

def ht28 : HtmlCell :=
  { kind := .markdown,
    input := none,
    outputs := [],
    body := [ "<h3 id=\"Building-a-classifier\">Building a classifier<a class=\"anchor-link\" href=\"#Building-a-classifier\">&#182;</a></h3>"] }

def ht29 : HtmlCell :=
  { kind := .markdown,
    input := none,
    outputs := [],
    body := [ "<p>We now use the <code>data_clas</code> object we created earlier to build a classifier with our fine-tuned encoder. The learner object can be done in a single line.</p>"] }

def ht30 : HtmlCell :=
  { kind := .code,
    input := some [ "<div class=\" highlight hl-ipython3\"><pre><span></span><span class=\"n\">learn</span> <span class=\"o\">=</span> <span class=\"n\">RNNLearner</span><span class=\"o\">.</span><span class=\"n\">classifier</span><span class=\"p\">(</span><span class=\"n\">data_clas</span><span class=\"p\">,</span> <span class=\"n\">drop_mult</span><span class=\"o\">=</span><span class=\"mf\">0.5</span><span class=\"p\">)</span>",
      "<span class=\"n\">learn</span><span class=\"o\">.</span><span class=\"n\">load_encoder</span><span class=\"p\">(</span><span class=\"s1\">&#39;ft_enc&#39;</span><span class=\"p\">)</span>",
      "<span class=\"n\">learn</span><span class=\"o\">.</span><span class=\"n\">fit_one_cycle</span><span class=\"p\">(</span><span class=\"mi\">1</span><span class=\"p\">,</span> <span class=\"mf\">1e-2</span><span class=\"p\">)</span>"],
    outputs := [ [ "<pre>Total time: 00:24",
        "epoch  train_loss  valid_loss  accuracy",
        "1      0.612591    0.585682    0.715000  (00:24)",
        "",
        "</pre>"]],
    body := [] }

def ht31 : HtmlCell :=
  { kind := .markdown,
    input := none,
    outputs := [],
    body := [ "<p>Again, we can unfreeze the model and fine-tune it.</p>"] }

def ht32 : HtmlCell :=
  { kind := .code,
    input := some [ "<div class=\" highlight hl-ipython3\"><pre><span></span><span class=\"n\">learn</span><span class=\"o\">.</span><span class=\"n\">freeze_to</span><span class=\"p\">(</span><span class=\"o\">-</span><span class=\"mi\">2</span><span class=\"p\">)</span>",
      "<span class=\"n\">learn</span><span class=\"o\">.</span><span class=\"n\">fit_one_cycle</span><span class=\"p\">(</span><span class=\"mi\">1</span><span class=\"p\">,</span> <span class=\"nb\">slice</span><span class=\"p\">(</span><span class=\"mf\">5e-3</span><span class=\"o\">/</span><span class=\"mf\">2.</span><span class=\"p\">,</span> <span class=\"mf\">5e-3</span><span class=\"p\">))</span>"],
    outputs := [ [ "<pre>Total time: 00:28",
        "epoch  train_loss  valid_loss  accuracy",
        "1      0.545209    0.526416    0.705000  (00:28)",
        "",
        "</pre>"]],
    body := [] }

def ht33 : HtmlCell :=
  { kind := .code,
    input := some [ "<div class=\" highlight hl-ipython3\"><pre><span></span><span class=\"n\">learn</span><span class=\"o\">.</span><span class=\"n\">unfreeze</span><span class=\"p\">()</span>",
      "<span class=\"n\">learn</span><span class=\"o\">.</span><span class=\"n\">fit_one_cycle</span><span class=\"p\">(</span><span class=\"mi\">1</span><span class=\"p\">,</span> <span class=\"nb\">slice</span><span class=\"p\">(</span><span class=\"mf\">2e-3</span><span class=\"o\">/</span><span class=\"mi\">100</span><span class=\"p\">,</span> <span class=\"mf\">2e-3</span><span class=\"p\">))</span>"],
    outputs := [ [ "<pre>Total time: 00:54",
        "epoch  train_loss  valid_loss  accuracy",
        "1      0.448358    0.569745    0.740000  (00:54)",
        "",
        "</pre>"]],
    body := [] }

/-- The HTML export src/docs/text.html as its ordered list of rendered cell blocks. -/
def textHtml : List HtmlCell :=
  [ ht0, ht1, ht2, ht3, ht4, ht5, ht6, ht7, ht8, ht9, ht10, ht11, ht12, ht13, ht14, ht15, ht16, ht17, ht18, ht19, ht20, ht21, ht22, ht23, ht24, ht25, ht26, ht27, ht28, ht29, ht30, ht31, ht32, ht33]
/-!
## Text extraction

Executable functions that recover the visible text of the rendered HTML and
of the notebook markdown, decode the pygments-highlighted code blocks back to
plain source, and split text into words for whitespace-insensitive
comparison.
-/

/-- Concatenate lines into one character list, separating lines by `'\n'`. -/
def joinLines (ls : List String) : List Char :=
  (ls.map String.data).foldr (fun l acc => l ++ '\n' :: acc) []

/-- Remove HTML tags: drop every character span between `<` and the next `>`.
The flag records whether the scan is currently inside a tag. -/
def stripTags : Bool → List Char → List Char
  | _, [] => []
  | true, c :: rest => if c = '>' then stripTags false rest else stripTags true rest
  | false, c :: rest => if c = '<' then stripTags true rest else c :: stripTags false rest

/-- Decode the HTML character entities occurring in the export
(`&#39;` apostrophe, `&amp;`, `&gt;`, `&lt;`, `&quot;`).  The entity `&#182;`
is the pilcrow glyph of the anchor links that the exporter appends to every
heading; it is navigation chrome with no counterpart in the notebook text and
decodes to nothing. -/
def decodeEntities : List Char → List Char
  | [] => []
  | '&' :: '#' :: '3' :: '9' :: ';' :: rest => '\x27' :: decodeEntities rest
  | '&' :: '#' :: '1' :: '8' :: '2' :: ';' :: rest => decodeEntities rest
  | '&' :: 'a' :: 'm' :: 'p' :: ';' :: rest => '&' :: decodeEntities rest
  | '&' :: 'g' :: 't' :: ';' :: rest => '>' :: decodeEntities rest
  | '&' :: 'l' :: 't' :: ';' :: rest => '<' :: decodeEntities rest
  | '&' :: 'q' :: 'u' :: 'o' :: 't' :: ';' :: rest => '"' :: decodeEntities rest
  | c :: rest => c :: decodeEntities rest

/-- Whitespace characters for word splitting. -/
def isWs (c : Char) : Bool := c = ' ' || c = '\n' || c = '\t'

/-- Split a character list into its whitespace-separated words.  The first
argument accumulates the current word in reverse. -/
def wordsAux (cur : List Char) : List Char → List String
  | [] => if cur.isEmpty then [] else [String.mk cur.reverse]
  | c :: rest =>
    if isWs c then
      if cur.isEmpty then wordsAux [] rest
      else String.mk cur.reverse :: wordsAux [] rest
    else wordsAux (c :: cur) rest

/-- The whitespace-separated words of a character list. -/
def wordsOf (l : List Char) : List String := wordsAux [] l

/-- The visible words of a list of HTML lines: strip tags, decode entities,
split into words. -/
def htmlWords (ls : List String) : List String :=
  wordsOf (decodeEntities (stripTags false (joinLines ls)))

/-- Strip the markdown block marker of one line: a heading marker `#`/`##`/
`###` followed by a space, a bullet marker `- `, or an ordered-list marker
`1. `. -/
def lineMarkerStripped : List Char → List Char
  | '#' :: '#' :: '#' :: ' ' :: rest => rest
  | '#' :: '#' :: ' ' :: rest => rest
  | '#' :: ' ' :: rest => rest
  | '-' :: ' ' :: rest => rest
  | '1' :: '.' :: ' ' :: rest => rest
  | l => l

/-- Strip markdown inline markup: `[text](url)` keeps `text` and drops the
url, backticks and emphasis asterisks are dropped.  The flag records whether
the scan is currently inside the `(url)` part of a link. -/
def mdInline : Bool → List Char → List Char
  | _, [] => []
  | true, c :: rest => if c = ')' then mdInline false rest else mdInline true rest
  | false, ']' :: '(' :: rest => mdInline true rest
  | false, '[' :: rest => mdInline false rest
  | false, ']' :: rest => mdInline false rest
  | false, '*' :: rest => mdInline false rest
  | false, '\x60' :: rest => mdInline false rest
  | false, c :: rest => c :: mdInline false rest

/-- The rendered text of one markdown source line: strip the block marker,
any raw HTML tags, and inline markup. -/
def mdLineChars (l : String) : List Char :=
  mdInline false (stripTags false (lineMarkerStripped l.data))

/-- The visible words of a notebook markdown cell. -/
def nbMdWords (src : List String) : List String :=
  wordsOf ((src.map mdLineChars).foldr (fun l acc => l ++ '\n' :: acc) [])

/-- Decode one line of a pygments-highlighted code block back to plain
source. -/
def decodeCodeLine (l : String) : String :=
  String.mk (decodeEntities (stripTags false l.data))

/-- The plain source lines of the input block of an HTML code cell, `none`
when the cell div has no input area. -/
def htmlCodeLines (h : HtmlCell) : Option (List String) :=
  h.input.map (List.map decodeCodeLine)

/-- The lines the HTML export renders for a notebook output: the stream text,
or for an `execute_result` the `text/html` rendering when stored and the
`text/plain` rendering otherwise. -/
def nbOutLines : NbOutput → List String
  | .stream t => t
  | .execResult p h => h.getD p

/-- The visible words of a rendered output block. -/
def outWords (ls : List String) : List String := htmlWords ls

/-- The captured outputs of a notebook cell and the output blocks of an HTML
cell agree: same number of blocks, and blockwise the same visible words. -/
def outputsMatch (n : NbCell) (h : HtmlCell) : Bool :=
  n.outputs.map (fun o => outWords (nbOutLines o)) == h.outputs.map outWords

/-- Correspondence between a notebook cell and an HTML cell exactly as claim
C1 states it: same cell type; markdown cells render to the same visible
words; code cells carry the same source and the same rendered outputs. -/
def cellMatchesStrict (n : NbCell) (h : HtmlCell) : Bool :=
  match n.kind, h.kind with
  | .markdown, .markdown => nbMdWords n.source == htmlWords h.body
  | .code, .code => htmlCodeLines h == some n.source && outputsMatch n h
  | _, _ => false

/-- Correspondence as the export actually behaves: as `cellMatchesStrict`,
except that a code cell with the `hide_input` metadata flag set appears in
the HTML as a code cell with no input area at all. -/
def cellMatchesExport (n : NbCell) (h : HtmlCell) : Bool :=
  match n.kind, h.kind with
  | .markdown, .markdown => nbMdWords n.source == htmlWords h.body
  | .code, .code =>
    (if n.hideInput then htmlCodeLines h == none
     else htmlCodeLines h == some n.source) && outputsMatch n h
  | _, _ => false

/-- Claim C1 as stated: the two artifacts have the same cells in the same
order, with every code cell's source present in the HTML. -/
def mirrorsStrict : Bool :=
  textIpynb.length == textHtml.length &&
    (List.zip textIpynb textHtml).all fun p => cellMatchesStrict p.1 p.2

/-- The amended correspondence: the two artifacts have the same cells in the
same order, code cells marked `hide_input` appearing without their source. -/
def mirrorsExport : Bool :=
  textIpynb.length == textHtml.length &&
    (List.zip textIpynb textHtml).all fun p => cellMatchesExport p.1 p.2
/-!
## Derived views of the notebook

Code statements, demonstrated library calls, captured outputs and the
session event sequence, all computed from the embedded artifacts.
-/

/-- The placeholder cell returned when an index is out of range. -/
def emptyNb : NbCell := { kind := .markdown, hideInput := false, source := [], outputs := [] }

/-- The placeholder HTML cell returned when an index is out of range. -/
def emptyHt : HtmlCell := { kind := .markdown, input := none, outputs := [], body := [] }

/-- The `i`-th cell of the notebook. -/
def nbCellAt (i : Nat) : NbCell := (textIpynb.drop i).headD emptyNb

/-- The `i`-th cell block of the HTML export. -/
def htCellAt (i : Nat) : HtmlCell := (textHtml.drop i).headD emptyHt

/-- All source lines of the notebook's code cells, in order. -/
def codeLines : List String :=
  (textIpynb.filter fun c => c.kind == .code).flatMap NbCell.source

/-- A Python comment line (the two `#` comment lines of the data-bunch cell). -/
def isCommentLine (l : String) : Bool :=
  match l.data with
  | '#' :: _ => true
  | _ => false

/-- The code statements of the notebook: its code lines excluding comment
lines and blank lines. -/
def codeStatements : List String :=
  codeLines.filter fun l => !isCommentLine l && l.data.any fun c => !isWs c

/-- All source lines of the HTML export's code cells (decoded from the
highlighted blocks), excluding comments and blanks. -/
def htmlCodeStatements : List String :=
  ((textHtml.flatMap fun h => (htmlCodeLines h).getD []).filter
    fun l => !isCommentLine l && l.data.any fun c => !isWs c)

/-- A character that can occur in a (possibly dotted) Python identifier
path. -/
def isIdentChar (c : Char) : Bool :=
  c.isAlpha || c.isDigit || c = '_' || c = '.'

/-- Scan a code line for call sites: every maximal identifier-path run that
is immediately followed by `(` is recorded as a demonstrated call.  The first
argument accumulates the current run in reverse. -/
def callScan (cur : List Char) : List Char → List String
  | [] => []
  | c :: rest =>
    if isIdentChar c then callScan (c :: cur) rest
    else if c = '(' && !cur.isEmpty then String.mk cur.reverse :: callScan [] rest
    else callScan [] rest

/-- The call sites of one code line. -/
def callsOfLine (l : String) : List String := callScan [] l.data

/-- Every call demonstrated in the notebook's code cells, in order. -/
def demonstratedCalls : List String := codeStatements.flatMap callsOfLine

/-- Group 1 of claim C3: the dataset download helper. -/
def datasetDownloadCalls : List String := ["untar_data"]

/-- Group 2 of claim C3: CSV loading. -/
def csvLoadingCalls : List String := ["pd.read_csv"]

/-- Group 3 of claim C3: class-list loading. -/
def classListCalls : List String := ["read_classes"]

/-- Group 4 of claim C3: dataset / data-bunch factory methods. -/
def dataBunchFactoryCalls : List String :=
  ["TextDataset.from_df", "TextLMDataBunch.from_csv", "TextClasDataBunch.from_csv"]

/-- Group 5 of claim C3: the learner object's fit / freeze / unfreeze /
encoder-persistence methods (the learner object is bound to the name
`learn` throughout the notebook). -/
def learnerMethodCalls : List String :=
  ["learn.fit_one_cycle", "learn.freeze_to", "learn.unfreeze",
   "learn.save_encoder", "learn.load_encoder"]

/-- Membership in the five groups that claim C3 enumerates. -/
def inFiveGroups (s : String) : Bool :=
  datasetDownloadCalls.contains s || csvLoadingCalls.contains s ||
    classListCalls.contains s || dataBunchFactoryCalls.contains s ||
    learnerMethodCalls.contains s

/-- Learner-construction factory methods demonstrated in the notebook but
absent from claim C3's enumeration. -/
def learnerFactoryCalls : List String :=
  ["RNNLearner.language_model", "RNNLearner.classifier"]

/-- The dataframe preview call demonstrated in the notebook. -/
def dataFramePreviewCalls : List String := ["df.head"]

/-- The filesystem cache-cleanup calls of the deletion loop. -/
def cacheCleanupCalls : List String := ["os.path.exists", "os.remove"]

/-- The Python builtin demonstrated inside `fit_one_cycle` arguments. -/
def pythonBuiltinCalls : List String := ["slice"]

/-- Membership in the amended enumeration of demonstrated calls. -/
def inAmendedGroups (s : String) : Bool :=
  inFiveGroups s || learnerFactoryCalls.contains s ||
    dataFramePreviewCalls.contains s || cacheCleanupCalls.contains s ||
    pythonBuiltinCalls.contains s

/-- The external-library call sites among the demonstrated calls: everything
in the amended enumeration except the Python builtin `slice`; all of them
belong to the fastai, pandas or os public API. -/
def isExternalApiCallLine (l : String) : Bool :=
  (callsOfLine l).any fun c => inFiveGroups c || learnerFactoryCalls.contains c ||
    dataFramePreviewCalls.contains c || cacheCleanupCalls.contains c

/-- Character-list prefix test. -/
def startsWithChars : List Char → List Char → Bool
  | [], _ => true
  | _ :: _, [] => false
  | a :: as, b :: bs => a == b && startsWithChars as bs

/-- An import statement. -/
def isImportStatement (l : String) : Bool :=
  startsWithChars "from ".data l.data || startsWithChars "import ".data l.data

/-- A statement that would define a function, class or type: a Python `def`
or `class` statement or a `lambda` expression. -/
def isDefinitionStatement (l : String) : Bool :=
  startsWithChars "def ".data (l.data.dropWhile isWs) ||
    startsWithChars "class ".data (l.data.dropWhile isWs) ||
    (wordsOf l.data).contains "lambda"

/-- A control-flow or display statement over previously bound values: a
`for` loop header, or a bare expression containing no call at all (the
notebook displays `path` and `classes[0], classes[1]` this way). -/
def isDisplayOrLoopStatement (l : String) : Bool :=
  startsWithChars "for ".data l.data || !l.data.contains '('

/-- Claim C2 as stated: every code statement is an import or an
external-library API call. -/
def allImportOrApiCall : Bool :=
  codeStatements.all fun l => isImportStatement l || isExternalApiCallLine l

/-- The amended classification of claim C2: every code statement is an
import, an external-library API call, or a loop/display statement, and no
statement defines a function, class or type. -/
def glueOnlyNoDefinitions : Bool :=
  (codeStatements.all fun l =>
      isImportStatement l || isExternalApiCallLine l || isDisplayOrLoopStatement l) &&
    codeStatements.all (fun l => !isDefinitionStatement l) &&
    (htmlCodeStatements.all fun l =>
      isImportStatement l || isExternalApiCallLine l || isDisplayOrLoopStatement l) &&
    htmlCodeStatements.all (fun l => !isDefinitionStatement l)

/-!
## Parsers for the captured outputs (claim C4)
-/

/-- Scan up to the next apostrophe, returning the characters before it and
the remainder after it. -/
def scanToQuote (acc : List Char) : List Char → Option (String × List Char)
  | [] => none
  | c :: rest =>
    if c = '\x27' then some (String.mk acc.reverse, rest) else scanToQuote (c :: acc) rest

/-- Parse a Python `repr` of a pair of strings, `(\x27a\x27, \x27b\x27)`. -/
def parsePairOfStrings (l : List Char) : Option (String × String) :=
  match l with
  | '(' :: '\x27' :: rest =>
    match scanToQuote [] rest with
    | some (a, ',' :: ' ' :: '\x27' :: rest2) =>
      match scanToQuote [] rest2 with
      | some (b, [')']) => some (a, b)
      | _ => none
    | _ => none
  | _ => none

/-- Parse a decimal numeral. -/
def natOfChars (l : List Char) : Option Nat :=
  if l.isEmpty then none
  else l.foldl (fun acc c =>
    acc.bind fun n => if c.isDigit then some (n * 10 + (c.toNat - 48)) else none) (some 0)

/-- Parse a decimal numeral given as a string. -/
def natOfWord (s : String) : Option Nat := natOfChars s.data

/-- Parse one displayed dataframe row, `"<row index>  <label>  <text...>"`:
the row index, the integer label of column 0, and the text words of
column 1. -/
def parseRow (l : String) : Option (Nat × Nat × List String) :=
  match wordsOf l.data with
  | idx :: lab :: text =>
    match natOfWord idx, natOfWord lab with
    | some i, some n => some (i, n, text)
    | _, _ => none
  | _ => none

/-- The `text/plain` lines of the captured `df.head()` output (cell 11 of
the notebook). -/
def dfHeadPlainLines : List String :=
  match (nbCellAt 11).outputs with
  | [.execResult p _] => p
  | _ => []

/-- The parsed data rows of the captured `df.head()` output. -/
def dfHeadRows : List (Nat × Nat × List String) :=
  (dfHeadPlainLines.drop 1).filterMap parseRow

/-- The captured result of `classes[0], classes[1]` (cell 13 of the
notebook), parsed as a pair of strings. -/
def classesPair : Option (String × String) :=
  match (nbCellAt 13).outputs with
  | [.execResult p _] => parsePairOfStrings (p.headD "").data
  | _ => none
/-!
## The cache-deletion loop and the preprocessing cache (claims C5, C8)

The deletion loop is translated from cell 16 of the notebook:

```
for file in [\x27train_tok.npy\x27, \x27valid_tok.npy\x27]:
    if os.path.exists(path/\x27tmp\x27/file): os.remove(path/\x27tmp\x27/file)
```

File names are paths relative to the dataset folder `path`, so the loop
works on `"tmp/" ++ file`.
-/

/-- The state of the dataset folder: which file paths currently exist. -/
def FS : Type := String → Bool

/-- Set the presence bit of one path. -/
def setFile (fs : FS) (p : String) (b : Bool) : FS :=
  fun q => if q = p then b else fs q

/-- `os.path.exists`. -/
def osPathExists (fs : FS) (p : String) : Bool := fs p

/-- `os.remove`: deletes the file, raising `FileNotFoundError` when the path
does not exist. -/
def osRemove (fs : FS) (p : String) : Except String FS :=
  if fs p then .ok (setFile fs p false) else .error "FileNotFoundError"

/-- One iteration of the deletion loop: `os.remove` is invoked only under
the `os.path.exists` guard. -/
def cacheDeletionStep (fs : FS) (file : String) : Except String FS :=
  if osPathExists fs ("tmp/" ++ file) then osRemove fs ("tmp/" ++ file) else .ok fs

/-- The cache-deletion loop of notebook cell 16, iterating over
`["train_tok.npy", "valid_tok.npy"]` in order; a raise at the first
iteration would abort the loop. -/
def cacheDeletionLoop (fs : FS) : Except String FS :=
  match cacheDeletionStep fs "train_tok.npy" with
  | .error e => .error e
  | .ok fs1 => cacheDeletionStep fs1 "valid_tok.npy"

/-- The folder state after the deletion loop (claim C8 proves the loop never
raises, so the error branch is unreachable). -/
def afterDeletion (fs : FS) : FS :=
  match cacheDeletionLoop fs with
  | .ok g => g
  | .error _ => fs

/-- Modelled from the spec: the intermediate artifacts that
`TextDataset` persists under the `tmp` directory for one split — the tokens
(`_tok.npy`), the labels (`_lbl.npy`) and the token ids (`_id.npy`).  The
implementation of `TextDataset` is fastai library code not under `src/`;
the file names are the ones the notebook's markdown documents. -/
def splitArtifacts (split : String) : List String :=
  ["tmp/" ++ split ++ "_tok.npy", "tmp/" ++ split ++ "_lbl.npy", "tmp/" ++ split ++ "_id.npy"]

/-- Modelled from the spec: the persisted vocabulary mapping (`itos.pkl`). -/
def vocabFile : String := "tmp/itos.pkl"

/-- Modelled from the spec: a split's preprocessing result is cached when
all its artifacts and the vocabulary file are present. -/
def cachedSplit (fs : FS) (split : String) : Bool :=
  (splitArtifacts split).all fs && fs vocabFile

/-- Modelled from the spec: preprocessing one split.  When the split is
cached the stored artifacts are loaded directly and nothing is printed;
otherwise the split is tokenized and numericalized, `Numericalizing
<split>.` is printed, and the artifacts and the vocabulary are persisted.
The tokenizer itself is fastai library code not under `src/`; only the
cache discipline is modelled. -/
def preprocessSplit (split : String) (fs : FS) : FS × List String :=
  if cachedSplit fs split then (fs, [])
  else
    (setFile ((splitArtifacts split).foldl (fun g p => setFile g p true) fs) vocabFile true,
     ["Numericalizing " ++ split ++ "."])

/-- Modelled from the spec: `TextDataset.from_df` over the training
dataframe preprocesses the train split. -/
def fromDfTrain (fs : FS) : FS × List String := preprocessSplit "train" fs

/-- The folder state after the train split has been numericalized and its
artifacts persisted over `fs`. -/
def trainState (fs : FS) : FS :=
  setFile ((splitArtifacts "train").foldl (fun g p => setFile g p true) fs) vocabFile true

/-- The folder state after the valid split has additionally been
numericalized and persisted. -/
def validState (fs : FS) : FS :=
  setFile ((splitArtifacts "valid").foldl (fun g p => setFile g p true) (trainState fs)) vocabFile true

/-- Modelled from the spec: the `from_csv` data-bunch factories build a
`TextDataset` for `train.csv` and then for `valid.csv`. -/
def fromCsvBoth (fs : FS) : FS × List String :=
  let r1 := preprocessSplit "train" fs
  let r2 := preprocessSplit "valid" r1.1
  (r2.1, r1.2 ++ r2.2)

/-!
## The demonstrated session as an event sequence (claims C6, C9, C10)
-/

/-- The operations the notebook's code statements perform. -/
inductive SessionEvent
  | download
  | readCsvTrain
  | headPreview
  | readClassesFile
  | cacheDelete
  | fromDf
  | lmFromCsv
  | clasFromCsv
  | newLMLearner
  | newClasLearner
  | fitCycle
  | unfreezeStep
  | freezeToStep (n : Int)
  | saveEncoderStep (name : String)
  | loadEncoderStep (name : String)
  deriving DecidableEq, Repr

/-- The operation performed by one notebook code statement, by exact match
on the statement's text (imports, bare display expressions and the loop
header carry no session operation of their own; the loop's single body
statement is the `cacheDelete` event). -/
def lineEvent (l : String) : Option SessionEvent :=
  if l == "path = untar_data(URLs.IMDB_SAMPLE)" then some .download
  else if l == "df = pd.read_csv(path/\x27train.csv\x27, header=None)" then some .readCsvTrain
  else if l == "df.head()" then some .headPreview
  else if l == "classes = read_classes(path/\x27classes.txt\x27)" then some .readClassesFile
  else if l == "    if os.path.exists(path/\x27tmp\x27/file): os.remove(path/\x27tmp\x27/file)" then
    some .cacheDelete
  else if l == "train_ds = TextDataset.from_df(path, df, classes=classes)" then some .fromDf
  else if l == "data_lm = TextLMDataBunch.from_csv(path)" then some .lmFromCsv
  else if l == "data_clas = TextClasDataBunch.from_csv(path, vocab=data_lm.train_ds.vocab, bs=32)" then
    some .clasFromCsv
  else if l == "learn = RNNLearner.language_model(data_lm, pretrained_model=URLs.WT103, drop_mult=0.5)" then
    some .newLMLearner
  else if l == "learn = RNNLearner.classifier(data_clas, drop_mult=0.5)" then some .newClasLearner
  else if l == "learn.fit_one_cycle(1, 1e-2)" then some .fitCycle
  else if l == "learn.fit_one_cycle(1, 1e-3)" then some .fitCycle
  else if l == "learn.fit_one_cycle(1, slice(5e-3/2., 5e-3))" then some .fitCycle
  else if l == "learn.fit_one_cycle(1, slice(2e-3/100, 2e-3))" then some .fitCycle
  else if l == "learn.unfreeze()" then some .unfreezeStep
  else if l == "learn.freeze_to(-2)" then some (.freezeToStep (-2))
  else if l == "learn.save_encoder(\x27ft_enc\x27)" then some (.saveEncoderStep "ft_enc")
  else if l == "learn.load_encoder(\x27ft_enc\x27)" then some (.loadEncoderStep "ft_enc")
  else none

/-- The demonstrated session: the sequence of operations the notebook's code
statements perform, in order. -/
def sessionEvents : List SessionEvent := codeLines.filterMap lineEvent

/-- The position of the classifier-learner construction in the session. -/
def clasLearnerIndex : Nat := sessionEvents.indexOf .newClasLearner

/-!
## Vocabulary sharing (claim C9)
-/

/-- Modelled from the spec: the vocabulary fields of the session state.
`lmVocab` is `data_lm.train_ds.vocab`, `clasVocab` is
`data_clas.train_ds.vocab`; `none` before the respective data bunch exists. -/
structure VocabState where
  lmVocab : Option (List String)
  clasVocab : Option (List String)
  deriving DecidableEq, Repr

/-- Modelled from the spec: how one session event acts on the vocabulary
fields.  Building the language-model data over the cached preprocessing
artifacts installs the stored vocabulary `v`; `TextClasDataBunch.from_csv`
receives `vocab=data_lm.train_ds.vocab`, so the classifier data bunch takes
the language model's vocabulary; no other demonstrated operation touches a
vocabulary. -/
def vocabStep (v : List String) (s : VocabState) : SessionEvent → VocabState
  | .lmFromCsv => { s with lmVocab := some v }
  | .clasFromCsv => { s with clasVocab := s.lmVocab }
  | _ => s

/-- The vocabulary fields along the demonstrated session, starting before
any data bunch exists; `v` is the vocabulary persisted during
preprocessing. -/
def vocabTrace (v : List String) : List VocabState :=
  sessionEvents.scanl (vocabStep v) { lmVocab := none, clasVocab := none }

/-!
## The two learner phases (claim C10)
-/

/-- The two learner objects the name `learn` is bound to during the
session. -/
inductive LearnerObj
  | lmLearner
  | clasLearner
  deriving DecidableEq, Repr

/-- The events that invoke a method on the object currently bound to
`learn`. -/
def isLearnerMethodEvent : SessionEvent → Bool
  | .fitCycle | .unfreezeStep | .freezeToStep _ | .saveEncoderStep _ | .loadEncoderStep _ => true
  | _ => false

/-- Each session event paired with the object the name `learn` denotes when
the event runs (Python name binding: an assignment to `learn` rebinds the
name for every later statement). -/
def learnerBindingTrace : List (SessionEvent × Option LearnerObj) :=
  (sessionEvents.foldl
    (fun (acc : List (SessionEvent × Option LearnerObj) × Option LearnerObj) e =>
      let b : Option LearnerObj :=
        match e with
        | .newLMLearner => some .lmLearner
        | .newClasLearner => some .clasLearner
        | _ => acc.2
      (acc.1 ++ [(e, b)], b))
    ([], none)).1

/-- After the classifier learner is constructed, every learner-method event
of the session applies to the classifier learner: the language-model learner
is never referenced again. -/
def lmLearnerNeverReferencedAfterRebind : Bool :=
  (learnerBindingTrace.drop clasLearnerIndex).all fun p =>
    !isLearnerMethodEvent p.1 || p.2 == some .clasLearner

/-- Modelled from the spec: the fields of the fine-tuned language-model
learner.  Only `encoder` (the shared recurrent sub-network) is persisted by
`save_encoder`; the decoder head and the optimizer state stay behind. -/
structure LMLearnerState where
  encoder : Nat
  decoderHead : Nat
  optimizerState : Nat
  deriving DecidableEq, Repr

/-- Modelled from the spec: `learn.save_encoder(\x27ft_enc\x27)` persists
exactly the encoder of the language-model learner under the name
`ft_enc`. -/
def savedEncoderFile (lm : LMLearnerState) : Nat := lm.encoder

/-- Modelled from the spec: the outcome of the classifier phase as a
function of everything it consumes — the persisted encoder file, the shared
vocabulary, the classifier data bunch and the training randomness. -/
def classifierPhase (encFile : Nat) (vocab : List String) (clasData seed : Nat) : Nat :=
  encFile + vocab.length + clasData + seed

/-- The classifier phase of the demonstrated session: the classifier learner
loads the file saved under `ft_enc` before it fits; the language-model
learner enters only through that file. -/
def classifierPhaseOfSession (lm : LMLearnerState) (vocab : List String)
    (clasData seed : Nat) : Nat :=
  classifierPhase (savedEncoderFile lm) vocab clasData seed

/-!
## Stochastic and deterministic outputs (claim C7)
-/

/-- Whether notebook cell `i` carries a captured output. -/
def hasOutputCell (i : Nat) : Bool := !(nbCellAt i).outputs.isEmpty

/-- The visible words of all captured outputs of notebook cell `i`. -/
def cellOutText (i : Nat) : List String :=
  ((nbCellAt i).outputs.map fun o => outWords (nbOutLines o)).flatten

/-- Whether the captured output of cell `i` is a training log (it shows the
`train_loss` / `valid_loss` / `accuracy` metrics of a `fit_one_cycle`
call). -/
def isTrainingLogCell (i : Nat) : Bool := (cellOutText i).contains "train_loss"

/-- Modelled from the spec: the output a run of the demonstrated session
produces at cell `i`, as a function of the training randomness `seed`.
Training logs show stochastic model-training metrics; every other captured
output (paths, dataframe preview, class list, progress messages) is
determined by the dataset and the session and equals the captured text. -/
def observedOutput (seed : Nat) (i : Nat) : List String :=
  if isTrainingLogCell i then ["metrics", String.mk (List.replicate seed '*')] else cellOutText i
/-!
## Helper lemmas
-/

/-- The deletion loop always succeeds and leaves both cache files absent;
every other path is untouched. -/
theorem deletionLoopOk (fs : FS) :
    ∃ g, cacheDeletionLoop fs = Except.ok g
      ∧ g "tmp/train_tok.npy" = false
      ∧ g "tmp/valid_tok.npy" = false
      ∧ ∀ q, q ≠ "tmp/train_tok.npy" → q ≠ "tmp/valid_tok.npy" → g q = fs q := by
  have e1 : ("tmp/" ++ "train_tok.npy" : String) = "tmp/train_tok.npy" := rfl
  have e2 : ("tmp/" ++ "valid_tok.npy" : String) = "tmp/valid_tok.npy" := rfl
  cases h1 : fs "tmp/train_tok.npy" <;> cases h2 : fs "tmp/valid_tok.npy"
  · refine ⟨fs, ?_, h1, h2, fun q _ _ => rfl⟩
    simp [cacheDeletionLoop, cacheDeletionStep, osPathExists, e1, e2, h1, h2]
  · refine ⟨setFile fs "tmp/valid_tok.npy" false, ?_, ?_, ?_, ?_⟩
    · simp [cacheDeletionLoop, cacheDeletionStep, osPathExists, osRemove, e1, e2, h1, h2]
    · simp [setFile, h1]
    · simp [setFile]
    · intro q hq1 hq2
      simp [setFile, hq2]
  · refine ⟨setFile fs "tmp/train_tok.npy" false, ?_, ?_, ?_, ?_⟩
    · simp [cacheDeletionLoop, cacheDeletionStep, osPathExists, osRemove, setFile, e1, e2, h1, h2]
    · simp [setFile]
    · simp [setFile, h2]
    · intro q hq1 hq2
      simp [setFile, hq1]
  · refine ⟨setFile (setFile fs "tmp/train_tok.npy" false) "tmp/valid_tok.npy" false, ?_, ?_, ?_, ?_⟩
    · simp [cacheDeletionLoop, cacheDeletionStep, osPathExists, osRemove, setFile, e1, e2, h1, h2]
    · simp [setFile]
    · simp [setFile]
    · intro q hq1 hq2
      simp [setFile, hq1, hq2]

/-- The sequence of operations the notebook's code statements perform. -/
theorem sessionEventsVal :
    sessionEvents =
      [.download, .readCsvTrain, .headPreview, .readClassesFile, .cacheDelete, .fromDf,
       .lmFromCsv, .clasFromCsv, .newLMLearner, .fitCycle, .unfreezeStep, .fitCycle,
       .saveEncoderStep "ft_enc", .newClasLearner, .loadEncoderStep "ft_enc", .fitCycle,
       .freezeToStep (-2), .fitCycle, .unfreezeStep, .fitCycle] := by decide

/-- From the construction of the classifier data bunch on, both vocabulary
fields hold the stored vocabulary. -/
theorem vocabTraceVal (v : List String) :
    (vocabTrace v).drop 8 =
      List.replicate 13 { lmVocab := some v, clasVocab := some v } := rfl

/-!
## Claims
-/

/-- C1, counterexample: the two artifacts do not mirror each other at the
granularity the claim states.  Notebook cell 1 is a code cell whose source
is the `nbdoc` import, but (the cell being marked `hide_input`) the
corresponding HTML cell block contains no input area at all, so the HTML
does not contain its code-cell source. -/
theorem notebook_html_strict_mirror_fails :
    mirrorsStrict = false
    ∧ (nbCellAt 1).kind = CellKind.code
    ∧ (nbCellAt 1).source = ["from fastai.gen_doc.nbdoc import *"]
    ∧ (nbCellAt 1).hideInput = true
    ∧ (htCellAt 1).kind = CellKind.code
    ∧ (htCellAt 1).input = none := by decide

/-- C1, amended: the HTML export and the notebook mirror each other's
content cell for cell, in the same order, with the same rendered markdown
text, the same code-cell source and the same captured outputs, except that
the two code cells marked `hide_input` (cells 1 and 16) appear in the HTML
as code cells without their source; the HTML contains no cell absent from
the notebook. -/
theorem notebook_html_mirror_up_to_hidden_input : mirrorsExport = true := by decide

/-- C2, counterexample: the bare display expression `path` is a code
statement of the notebook that is neither an import statement nor a call
into any library API, so not every code statement is an import or an
external-library call. -/
theorem bare_expression_statement_not_import_or_call :
    codeStatements.contains "path" = true
    ∧ isImportStatement "path" = false
    ∧ isExternalApiCallLine "path" = false
    ∧ isDefinitionStatement "path" = false
    ∧ allImportOrApiCall = false := by decide

/-- C2, amended: every code statement of the notebook and of the HTML
export's code cells is an import statement, a call into an external
library's public API (fastai, pandas, os), or a loop/display statement over
previously bound values, and no statement defines a function, class or
type. -/
theorem code_statements_are_glue_no_definitions : glueOnlyNoDefinitions = true := by decide

/-- C3, counterexample: `os.remove` is demonstrated in the notebook's
cache-deletion cell but belongs to none of the five groups the claim
enumerates, so the enumeration is not exhaustive. -/
theorem os_remove_outside_five_groups :
    demonstratedCalls.contains "os.remove" = true
    ∧ inFiveGroups "os.remove" = false
    ∧ demonstratedCalls.all inFiveGroups = false := by decide

/-- C3, amended: every demonstrated call belongs to the claim's five groups
(dataset download helper, CSV loading, class-list loading, dataset /
data-bunch factory methods, learner fit / freeze / unfreeze /
encoder-persistence methods) extended by learner-construction factories,
the dataframe preview, the filesystem cache-deletion helpers and the Python
builtin `slice`. -/
theorem demonstrated_calls_classified :
    demonstratedCalls.all inAmendedGroups = true := by decide

/-- C4: the demonstrated labeled dataset is CSV-based with two columns,
integer label then review text (the captured `df.head()` preview shows
columns named 0 and 1 and five rows whose first column is the label 0 or 1
and whose second column is non-empty text), and the captured
`classes[0], classes[1]` lookup of the `read_classes` result yields
`negative` at index 0 and `positive` at index 1. -/
theorem csv_label_text_and_classes_lookup :
    (nbCellAt 11).source = ["df = pd.read_csv(path/\x27train.csv\x27, header=None)", "df.head()"]
    ∧ wordsOf (dfHeadPlainLines.headD "").data = ["0", "1"]
    ∧ dfHeadRows.map (fun r => r.1) = [0, 1, 2, 3, 4]
    ∧ dfHeadRows.all (fun r => (r.2.1 == 0 || r.2.1 == 1) && !r.2.2.isEmpty) = true
    ∧ (nbCellAt 13).source = ["classes = read_classes(path/\x27classes.txt\x27)", "classes[0], classes[1]"]
    ∧ classesPair = some ("negative", "positive") := by decide

/-- C5: starting from any folder state, after the deletion loop the
demonstrated sequence — `TextDataset.from_df` over the training dataframe,
then `TextLMDataBunch.from_csv`, then `TextClasDataBunch.from_csv` —
numericalizes the train split exactly once, finds it cached during the
subsequent data-bunch constructions (loading the persisted artifacts
instead of recomputing), and re-preprocesses only the validation set; the
printed messages are exactly the captured outputs of notebook cells 17
and 19. -/
theorem training_cache_reused_only_valid_renumericalized :
    ∀ fs : FS,
      (fromDfTrain (afterDeletion fs)).2 = ["Numericalizing train."]
      ∧ cachedSplit (fromDfTrain (afterDeletion fs)).1 "train" = true
      ∧ (fromCsvBoth (fromDfTrain (afterDeletion fs)).1).2 = ["Numericalizing valid."]
      ∧ (fromCsvBoth (fromCsvBoth (fromDfTrain (afterDeletion fs)).1).1).2 = []
      ∧ (nbCellAt 17).outputs = [NbOutput.stream ["Numericalizing train."]]
      ∧ (nbCellAt 19).outputs = [NbOutput.stream ["Numericalizing valid."]] := by
  intro fs
  obtain ⟨g, hg, hA, hB, _⟩ := deletionLoopOk fs
  have hfs1 : afterDeletion fs = g := by rw [afterDeletion, hg]
  have k1 : ("tmp/" ++ "train" ++ "_tok.npy" : String) = "tmp/train_tok.npy" := rfl
  have k4 : ("tmp/" ++ "valid" ++ "_tok.npy" : String) = "tmp/valid_tok.npy" := rfl
  have hNCT : cachedSplit g "train" = false := by
    simp [cachedSplit, splitArtifacts, k1, hA]
  have hTrain : fromDfTrain g = (trainState g, ["Numericalizing train."]) := by
    simp [fromDfTrain, preprocessSplit, hNCT, trainState]
  have hCT : cachedSplit (trainState g) "train" = true := rfl
  have hNCV : cachedSplit (trainState g) "valid" = false := by
    simp [cachedSplit, splitArtifacts, trainState, setFile, vocabFile, k1, k4, hB]
  have hValidRun : fromCsvBoth (trainState g) = (validState g, ["Numericalizing valid."]) := by
    simp [fromCsvBoth, preprocessSplit, hCT, hNCV, validState]
  have hCT2 : cachedSplit (validState g) "train" = true := rfl
  have hCV2 : cachedSplit (validState g) "valid" = true := rfl
  have hBoth2 : fromCsvBoth (validState g) = (validState g, []) := by
    simp [fromCsvBoth, preprocessSplit, hCT2, hCV2]
  rw [hfs1]
  refine ⟨?_, ?_, ?_, ?_, by decide, by decide⟩
  · rw [hTrain]
  · rw [hTrain]; exact hCT
  · rw [hTrain]
    show (fromCsvBoth (trainState g)).2 = _
    rw [hValidRun]
  · rw [hTrain]
    show (fromCsvBoth (fromCsvBoth (trainState g)).1).2 = _
    rw [hValidRun]
    show (fromCsvBoth (validState g)).2 = _
    rw [hBoth2]

/-- C6: in the demonstrated session the encoder is saved under `ft_enc`
exactly once, after the two language-model fits; the classifier learner is
constructed next, loads the encoder `ft_enc` before any classifier fit, and
classifier fine-tuning proceeds by a fit with the body frozen, then
`freeze_to(-2)` and a fit, then `unfreeze` and a fit, in that order. -/
theorem encoder_persistence_and_progressive_unfreezing_order :
    sessionEvents.count (SessionEvent.saveEncoderStep "ft_enc") = 1
    ∧ sessionEvents.indexOf (SessionEvent.saveEncoderStep "ft_enc") = 12
    ∧ (sessionEvents.take 12).count SessionEvent.fitCycle = 2
    ∧ clasLearnerIndex = 13
    ∧ sessionEvents.drop 13 =
        [SessionEvent.newClasLearner, SessionEvent.loadEncoderStep "ft_enc",
         SessionEvent.fitCycle, SessionEvent.freezeToStep (-2), SessionEvent.fitCycle,
         SessionEvent.unfreezeStep, SessionEvent.fitCycle] := by decide

/-- C7, counterexample: the captured output of notebook cell 13 (the
`classes[0], classes[1]` lookup) is not a stochastic training result — in
the session model no two runs can produce different values for it — so not
every captured output cell may vary between runs. -/
theorem class_lookup_output_deterministic :
    hasOutputCell 13 = true
    ∧ isTrainingLogCell 13 = false
    ∧ ¬ ∃ s1 s2 : Nat, observedOutput s1 13 ≠ observedOutput s2 13 := by
  refine ⟨by decide, by decide, ?_⟩
  rintro ⟨s1, s2, h⟩
  exact h rfl

/-- C7, amended: among the notebook's output-bearing cells, exactly the
training-log cells (the `fit_one_cycle` metric tables) reflect stochastic
training results — two runs with different training randomness produce
different values — while every other captured output is deterministic:
all runs produce the same value. -/
theorem training_log_outputs_stochastic_others_deterministic :
    ∀ i : Nat, i < 34 → hasOutputCell i = true →
      (isTrainingLogCell i = true → observedOutput 0 i ≠ observedOutput 1 i)
      ∧ (isTrainingLogCell i = false → ∀ s1 s2 : Nat, observedOutput s1 i = observedOutput s2 i) := by
  intro i hlt hout
  constructor
  · intro htl
    simp [observedOutput, htl]
  · intro hfl s1 s2
    simp [observedOutput, hfl]

/-- Witness for C7 at the first language-model training cell (cell 23). -/
theorem training_log_outputs_stochastic_witness :
    (23 : Nat) < 34 ∧ hasOutputCell 23 = true ∧ isTrainingLogCell 23 = true
    ∧ observedOutput 0 23 ≠ observedOutput 1 23 :=
  ⟨by decide, by decide, by decide,
    (training_log_outputs_stochastic_others_deterministic 23 (by decide) (by decide)).1 (by decide)⟩

/-- C8: in the cache-deletion loop of notebook cell 16, `os.remove` is
invoked only under the `os.path.exists` guard, so the loop never raises —
for every starting folder state it returns successfully — and afterwards
neither `train_tok.npy` nor `valid_tok.npy` exists under `path/tmp`. -/
theorem cache_deletion_loop_safe :
    (nbCellAt 16).source =
      ["for file in [\x27train_tok.npy\x27, \x27valid_tok.npy\x27]:",
       "    if os.path.exists(path/\x27tmp\x27/file): os.remove(path/\x27tmp\x27/file)"]
    ∧ ∀ fs : FS, ∃ g, cacheDeletionLoop fs = Except.ok g
        ∧ g "tmp/train_tok.npy" = false ∧ g "tmp/valid_tok.npy" = false :=
  ⟨by decide, fun fs => (deletionLoopOk fs).imp fun _ h => ⟨h.1, h.2.1, h.2.2.1⟩⟩

/-- C9: the classifier data bunch is built with
`vocab=data_lm.train_ds.vocab`, so from that construction point to the end
of the demonstrated session `data_clas` and `data_lm` hold one and the same
vocabulary, and no later operation replaces the vocabulary of either. -/
theorem vocab_shared_and_never_replaced :
    ∀ v : List String, ∀ s ∈ (vocabTrace v).drop 8,
      s.lmVocab = some v ∧ s.clasVocab = some v := by
  intro v s hs
  rw [vocabTraceVal] at hs
  rw [List.eq_of_mem_replicate hs]
  exact ⟨rfl, rfl⟩

/-- Witness for C9 at a concrete vocabulary. -/
theorem vocab_shared_witness :
    ({ lmVocab := some ["xxunk"], clasVocab := some ["xxunk"] } : VocabState)
        ∈ (vocabTrace ["xxunk"]).drop 8
    ∧ (({ lmVocab := some ["xxunk"], clasVocab := some ["xxunk"] } : VocabState).lmVocab
          = some ["xxunk"]
        ∧ ({ lmVocab := some ["xxunk"], clasVocab := some ["xxunk"] } : VocabState).clasVocab
          = some ["xxunk"]) :=
  ⟨by decide, vocab_shared_and_never_replaced ["xxunk"] _ (by decide)⟩

/-- C10: once the name `learn` is rebound to the classifier learner, every
later learner-method call of the session applies to the classifier learner
— the fine-tuned language-model learner is never referenced again — and
the classifier phase depends on the language-model learner only through the
encoder persisted under `ft_enc` (and the shared vocabulary): two
language-model learners with the same encoder yield the same classifier
phase whatever their other fields. -/
theorem classifier_phase_depends_only_on_encoder_and_vocab :
    lmLearnerNeverReferencedAfterRebind = true
    ∧ ∀ lm1 lm2 : LMLearnerState, ∀ vocab : List String, ∀ clasData seed : Nat,
        lm1.encoder = lm2.encoder →
        classifierPhaseOfSession lm1 vocab clasData seed =
          classifierPhaseOfSession lm2 vocab clasData seed := by
  refine ⟨by decide, ?_⟩
  intro lm1 lm2 vocab clasData seed h
  simp [classifierPhaseOfSession, savedEncoderFile, classifierPhase, h]

/-- Witness for C10: two language-model learners sharing the encoder but
differing in decoder head and optimizer state give the same classifier
phase. -/
theorem classifier_phase_frame_witness :
    (⟨7, 1, 2⟩ : LMLearnerState).encoder = (⟨7, 8, 9⟩ : LMLearnerState).encoder
    ∧ classifierPhaseOfSession ⟨7, 1, 2⟩ ["xxbos"] 3 4 =
        classifierPhaseOfSession ⟨7, 8, 9⟩ ["xxbos"] 3 4 :=
  ⟨rfl, classifier_phase_depends_only_on_encoder_and_vocab.2 ⟨7, 1, 2⟩ ⟨7, 8, 9⟩ ["xxbos"] 3 4 rfl⟩
